import Mathlib

/-!
Verification of the proton FeedHandler specification (spec.md §4.C, §7, §8).

The FeedHandler implementation itself is not part of the available sources
(only its unit test, `feedhandler_test.cpp`, is), so the handler is modelled
here from the specification's words, as a pure state-transition system.  The
observable quantities tracked by the state are exactly the counters and
results the test fixture observes: the TLS writer's store/erase counters, the
feed view's per-handler counters, the serial numbers, and the token results.
-/

set_option maxRecDepth 16384

/-- Error codes carried by an operation result (spec §6, `ErrorType`). -/
inductive ErrorType where
  | NONE
  | TRANSIENT_ERROR
  | RESOURCE_EXHAUSTED
  | PERMANENT_ERROR
  | TIMESTAMP_CONFLICT
deriving DecidableEq

/-- Result delivered through a FeedToken: an `(ErrorType, message)` pair plus
the `UpdateResult` payload fields (`existingTimestamp`, `documentWasFound`);
for non-update results the payload fields are 0 and false. -/
structure OpResult where
  errorType : ErrorType
  message : String
  existingTimestamp : Nat
  documentWasFound : Bool
deriving DecidableEq

/-- Modelled from the spec: the observable state of a FeedHandler together
with its collaborators (TLS writer counters, feed-view counters, owner flag,
resource-write-filter state).  The FeedHandler implementation is missing from
the sources; fields mirror the quantities named in spec §4.C and observed by
the feedhandler test fixture. -/
structure FeedState where
  serialNum : Nat
  prunedSerialNum : Nat
  delayedPrune : Bool
  tlsReplayDone : Bool
  allowPrune : Bool
  filterAccept : Bool
  filterMessage : String
  tlsStoreCount : Nat
  tlsEraseCount : Nat
  tlsEraseReturn : Bool
  putCount : Nat
  putSerial : Nat
  updateCount : Nat
  updateSerial : Nat
  removeCount : Nat
  pruneRemovedCount : Nat
  heartbeatCount : Nat
deriving DecidableEq

/-- The pruned-serial watermark accessor (spec §4.C.1). -/
def getPrunedSerialNum (s : FeedState) : Nat :=
  s.prunedSerialNum

/-- Modelled from the spec (§4.C.2): an operation is outdated iff
`prevTimestamp > 0 ∧ prevTimestamp > timestamp`. -/
def isOutdated (prevTimestamp timestamp : Nat) : Bool :=
  decide (0 < prevTimestamp) && decide (timestamp < prevTimestamp)

/-- Modelled from the spec (§4.C.3, §4.C.5): the rejection message format
used for both filter and type-compatibility rejections. -/
def rejectMessage (kind docId docType inner : String) : String :=
  kind ++ " operation rejected for document '" ++ docId ++ "' of type '" ++
    docType ++ "': '" ++ inner ++ "'"

/-- The OK no-op result completing a silently dropped operation (spec §4.C.2). -/
def okNoopResult : OpResult :=
  { errorType := ErrorType.NONE, message := "", existingTimestamp := 0,
    documentWasFound := false }

/-- A field of the active document type: its name and, when it is a tensor
field, its tensor type (rendered as the type spec string). -/
structure FieldDef where
  name : String
  tensorType : Option String
deriving DecidableEq

/-- A single field update carried by a document update: the target field name
and, when the new value is a tensor, the tensor type of that value. -/
structure FieldUpd where
  fieldName : String
  tensorType : Option String
deriving DecidableEq

/-- Look a field up by name in the active document type. -/
def lookupField : List FieldDef → String → Option FieldDef
  | [], _ => none
  | fd :: rest, n => if fd.name = n then some fd else lookupField rest n

/-- Modelled from the spec (§4.C.5): translate one field update against the
active document type; `some err` is the inner rejection message.  A field
missing from the active type yields "Field not found"; a tensor field update
whose tensor type differs from the schema's yields the wrong-tensor-type
message.  Only these two failure modes are specified. -/
def checkFieldUpd (active : List FieldDef) (fu : FieldUpd) : Option String :=
  match lookupField active fu.fieldName with
  | none => some "Field not found"
  | some fd =>
    match fd.tensorType, fu.tensorType with
    | some schemaTT, some updateTT =>
      if schemaTT = updateTT then none
      else some ("Wrong tensor type: Field tensor type is '" ++ schemaTT ++
                 "' but other tensor type is '" ++ updateTT ++ "'")
    | _, _ => none

/-- First translation error among the update's field updates, if any. -/
def verifyUpdate (active : List FieldDef) : List FieldUpd → Option String
  | [] => none
  | fu :: rest =>
    match checkFieldUpd active fu with
    | some err => some err
    | none => verifyUpdate active rest

/-- A Put operation as it reaches the handler after `preparePut`:
`prevTimestamp` is 0 when the meta store holds nothing for the document. -/
structure PutOp where
  docId : String
  docType : String
  timestamp : Nat
  prevTimestamp : Nat
deriving DecidableEq

/-- An Update operation as it reaches the handler after `prepareUpdate`:
`prevFound` tells whether the meta store holds the document (prev
DbDocumentId valid), `sameRepo` whether the update's document-type repo is
the active one. -/
structure UpdateOp where
  docId : String
  docType : String
  timestamp : Nat
  prevTimestamp : Nat
  prevFound : Bool
  createIfNonExistent : Bool
  sameRepo : Bool
  fieldUpdates : List FieldUpd
deriving DecidableEq

/-- A Remove operation as it reaches the handler after `prepareRemove`. -/
structure RemoveOp where
  docId : String
  docType : String
  timestamp : Nat
  prevTimestamp : Nat
  prevFound : Bool
deriving DecidableEq

/-- Modelled from the spec (§4.C.5): an update needs translation only when
its document-type repo differs from the active one. -/
def updateTypeError (active : List FieldDef) (op : UpdateOp) : Option String :=
  if op.sameRepo then none else verifyUpdate active op.fieldUpdates

/-- Modelled from the spec (§2 write path, §4.C.2, §4.C.3): the Put path.
The resource-write-filter gate comes first (spec §2 places the filter check
directly after `performOperation`); an outdated operation is then silently
dropped; otherwise the operation gets the next serial number, one TLS write
and one `handlePut` dispatch. -/
def performPut (s : FeedState) (op : PutOp) : FeedState × OpResult :=
  if s.filterAccept = false then
    (s, { errorType := ErrorType.RESOURCE_EXHAUSTED,
          message := rejectMessage "Put" op.docId op.docType s.filterMessage,
          existingTimestamp := 0, documentWasFound := false })
  else if isOutdated op.prevTimestamp op.timestamp then
    (s, okNoopResult)
  else
    ({ s with serialNum := s.serialNum + 1,
              tlsStoreCount := s.tlsStoreCount + 1,
              putCount := s.putCount + 1,
              putSerial := s.serialNum + 1 },
     { errorType := ErrorType.NONE, message := "", existingTimestamp := 0,
       documentWasFound := false })

/-- Modelled from the spec (§4.C.2 to §4.C.5): the Update path.  Filter gate,
outdated drop, document-type translation, then the existing-document /
create-if-non-existent / not-found branching of §4.C.4. -/
def performUpdate (s : FeedState) (active : List FieldDef) (op : UpdateOp) :
    FeedState × OpResult :=
  if s.filterAccept = false then
    (s, { errorType := ErrorType.RESOURCE_EXHAUSTED,
          message := rejectMessage "Update" op.docId op.docType s.filterMessage,
          existingTimestamp := 0, documentWasFound := false })
  else if isOutdated op.prevTimestamp op.timestamp then
    (s, okNoopResult)
  else
    match updateTypeError active op with
    | some err =>
      (s, { errorType := ErrorType.TRANSIENT_ERROR,
            message := rejectMessage "Update" op.docId op.docType err,
            existingTimestamp := 0, documentWasFound := false })
    | none =>
      if op.prevFound then
        ({ s with serialNum := s.serialNum + 1,
                  tlsStoreCount := s.tlsStoreCount + 1,
                  updateCount := s.updateCount + 1,
                  updateSerial := s.serialNum + 1 },
         { errorType := ErrorType.NONE, message := "",
           existingTimestamp := op.prevTimestamp, documentWasFound := true })
      else if op.createIfNonExistent then
        ({ s with serialNum := s.serialNum + 1,
                  tlsStoreCount := s.tlsStoreCount + 1,
                  putCount := s.putCount + 1,
                  putSerial := s.serialNum + 1 },
         { errorType := ErrorType.NONE, message := "",
           existingTimestamp := op.timestamp, documentWasFound := true })
      else
        (s, { errorType := ErrorType.NONE, message := "",
              existingTimestamp := 0, documentWasFound := false })

/-- Modelled from the spec (§4.C.2, §4.C.3): the Remove path.  Removes are
never consulted against the resource filter; an outdated remove is silently
dropped; otherwise the remove gets the next serial number, one TLS write and
one `handleRemove` dispatch. -/
def performRemove (s : FeedState) (op : RemoveOp) : FeedState × OpResult :=
  if isOutdated op.prevTimestamp op.timestamp then
    (s, okNoopResult)
  else
    ({ s with serialNum := s.serialNum + 1,
              tlsStoreCount := s.tlsStoreCount + 1,
              removeCount := s.removeCount + 1 },
     { errorType := ErrorType.NONE, message := "", existingTimestamp := 0,
       documentWasFound := op.prevFound })

/-- A document operation submitted through `performOperation`. -/
inductive FeedOp where
  | put : PutOp → FeedOp
  | update : UpdateOp → FeedOp
  | remove : RemoveOp → FeedOp

/-- Modelled from the spec (§4.C.1): `performOperation` dispatches a
submitted operation to its kind-specific handler on the master thread. -/
def performOperation (s : FeedState) (active : List FieldDef) :
    FeedOp → FeedState × OpResult
  | FeedOp.put op => performPut s op
  | FeedOp.update op => performUpdate s active op
  | FeedOp.remove op => performRemove s op

/-- Modelled from the spec (§4.C.1, §7): `tlsPrune` asks the transaction log
to erase entries up to `serial`; when the log refuses, an IllegalState
message is raised (`some msg` in the second component) and the watermark is
not advanced. -/
def tlsPrune (s : FeedState) (serial : Nat) : FeedState × Option String :=
  let s1 : FeedState := { s with tlsEraseCount := s.tlsEraseCount + 1 }
  if s.tlsEraseReturn then
    ({ s1 with prunedSerialNum := serial }, none)
  else
    (s1, some ("Failed to prune TLS to token " ++ Nat.repr serial ++ "."))

/-- Modelled from the spec (§4.C.1, §4.C.6, §8): `flushDone` records
durability up to `flushedSerial`.  It cannot unprune; while transaction-log
replay is not done (or the owner forbids pruning) the prune is recorded and
deferred; otherwise the TLS is pruned (a prune failure is logged and the
watermark retained, spec §4.C.7). -/
def flushDone (s : FeedState) (flushedSerial : Nat) : FeedState :=
  if flushedSerial ≤ s.prunedSerialNum then s
  else if s.tlsReplayDone && s.allowPrune then
    (tlsPrune s flushedSerial).1
  else
    { s with prunedSerialNum := flushedSerial, delayedPrune := true }

/-- Modelled from the spec (§4.C.6): entering the Normal feed state marks
replay done and applies any deferred prune the owner allows. -/
def changeToNormalFeedState (s : FeedState) : FeedState :=
  let s1 : FeedState := { s with tlsReplayDone := true }
  if s1.delayedPrune && s1.allowPrune then
    (tlsPrune { s1 with delayedPrune := false } s1.prunedSerialNum).1
  else s1

/-- Modelled from the spec: `performPruneRemovedDocuments` (implementation
not in the sources; behavior fixed by the feedhandler test): an operation
with no LIDs to remove is a no-op, otherwise the operation gets a serial
number, one TLS write and one `handlePruneRemovedDocuments` dispatch. -/
def performPruneRemovedDocuments (s : FeedState) (lidsToRemove : List Nat) :
    FeedState :=
  match lidsToRemove with
  | [] => s
  | _ :: _ =>
    { s with serialNum := s.serialNum + 1,
             tlsStoreCount := s.tlsStoreCount + 1,
             pruneRemovedCount := s.pruneRemovedCount + 1 }

/-- The state right after the test fixture's `handler.init(1)`: serial 1, all
counters 0, replay not done, pruning disallowed, filter accepting, TLS
accepting erases. -/
def initState : FeedState :=
  { serialNum := 1, prunedSerialNum := 0, delayedPrune := false,
    tlsReplayDone := false, allowPrune := false,
    filterAccept := true, filterMessage := "",
    tlsStoreCount := 0, tlsEraseCount := 0, tlsEraseReturn := true,
    putCount := 0, putSerial := 0, updateCount := 0, updateSerial := 0,
    removeCount := 0, pruneRemovedCount := 0, heartbeatCount := 0 }

/-- The fixture state with the resource filter rejecting writes. -/
def rejectFilterState : FeedState :=
  { initState with filterAccept := false,
                   filterMessage := "Attribute resource limit reached" }

/-- An outdated Put: prevTimestamp 10000, timestamp 10. -/
def outdatedPut : PutOp :=
  { docId := "id:ns:searchdocument::foo", docType := "searchdocument",
    timestamp := 10, prevTimestamp := 10000 }

/-- An outdated Remove: prevTimestamp 10000, timestamp 10. -/
def outdatedRemove : RemoveOp :=
  { docId := "id:ns:searchdocument::foo", docType := "searchdocument",
    timestamp := 10, prevTimestamp := 10000, prevFound := true }

/-- An outdated Update: prevTimestamp 10000, timestamp 10, same repo. -/
def outdatedUpdate : UpdateOp :=
  { docId := "id:ns:searchdocument::foo", docType := "searchdocument",
    timestamp := 10, prevTimestamp := 10000, prevFound := true,
    createIfNonExistent := false, sameRepo := true, fieldUpdates := [] }

/-- A plain Put of a fresh document. -/
def samplePut : PutOp :=
  { docId := "id:test:searchdocument::foo", docType := "searchdocument",
    timestamp := 10, prevTimestamp := 0 }

/-- A plain Remove of a document unknown to the meta store. -/
def sampleRemove : RemoveOp :=
  { docId := "id:test:searchdocument::foo", docType := "searchdocument",
    timestamp := 10, prevTimestamp := 0, prevFound := false }

/-- An Update of a non-existent document, createIfNonExistent not set. -/
def sampleUpdate : UpdateOp :=
  { docId := "id:test:searchdocument::foo", docType := "searchdocument",
    timestamp := 10, prevTimestamp := 0, prevFound := false,
    createIfNonExistent := false, sameRepo := true, fieldUpdates := [] }

/-- An Update of a non-existent document with createIfNonExistent set. -/
def sampleCreateUpdate : UpdateOp :=
  { sampleUpdate with createIfNonExistent := true }

/-- The active document type of the test fixture: index field i1 plus tensor
attribute fields tensor and tensor2, both of tensor type tensor(x\x7b\x7d,y\x7b\x7d). -/
def activeFields : List FieldDef :=
  [ { name := "i1", tensorType := none },
    { name := "tensor", tensorType := some "tensor(x\x7b\x7d,y\x7b\x7d)" },
    { name := "tensor2", tensorType := some "tensor(x\x7b\x7d,y\x7b\x7d)" } ]

/-- An update (different repo) to field i2, which the active type lacks. -/
def missingFieldUpdate : UpdateOp :=
  { docId := "id:test:searchdocument::foo", docType := "searchdocument",
    timestamp := 10, prevTimestamp := 9, prevFound := true,
    createIfNonExistent := false, sameRepo := false,
    fieldUpdates := [{ fieldName := "i2", tensorType := none }] }

/-- An update (different repo) to tensor field tensor2 carrying a value of
tensor type tensor(x\x7b\x7d), differing from the schema's type. -/
def wrongTensorUpdate : UpdateOp :=
  { docId := "id:test:searchdocument::foo", docType := "searchdocument",
    timestamp := 10, prevTimestamp := 9, prevFound := true,
    createIfNonExistent := false, sameRepo := false,
    fieldUpdates := [{ fieldName := "tensor2", tensorType := some "tensor(x\x7b\x7d)" }] }

/-- C1 counterexample: an outdated Put (prevTimestamp 10000 > timestamp 10)
submitted while the resource filter rejects writes completes with
RESOURCE_EXHAUSTED rather than an OK result, so the unconditional claim that
every outdated operation completes OK fails. -/
theorem outdated_put_under_rejecting_filter_not_ok :
    (performOperation rejectFilterState [] (FeedOp.put outdatedPut)).2.errorType ≠
      ErrorType.NONE := by
  decide

/-- C1 (amended): provided the resource-write filter accepts write operations
(the filter gate precedes the outdated check for Put and Update; Removes are
never filtered), every Put, Update or Remove with prevTimestamp > 0 and
prevTimestamp > timestamp is silently dropped: the whole state (TLS store
count, every FeedView counter) is unchanged and the token completes with the
OK no-op result. -/
theorem outdated_operations_silently_dropped
    (s : FeedState) (active : List FieldDef)
    (pOp : PutOp) (uOp : UpdateOp) (rOp : RemoveOp)
    (hf : s.filterAccept = true)
    (hp : isOutdated pOp.prevTimestamp pOp.timestamp = true)
    (hu : isOutdated uOp.prevTimestamp uOp.timestamp = true)
    (hr : isOutdated rOp.prevTimestamp rOp.timestamp = true) :
    performOperation s active (FeedOp.put pOp) = (s, okNoopResult) ∧
    performOperation s active (FeedOp.update uOp) = (s, okNoopResult) ∧
    performOperation s active (FeedOp.remove rOp) = (s, okNoopResult) := by
  refine ⟨?_, ?_, ?_⟩ <;>
    simp [performOperation, performPut, performUpdate, performRemove, hf, hp, hu, hr]

/-- C1 witness: the amended theorem at the test's concrete outdated
operations, from the fixture's initial state. -/
theorem outdated_operations_silently_dropped_witness :
    initState.filterAccept = true ∧
    isOutdated outdatedPut.prevTimestamp outdatedPut.timestamp = true ∧
    performOperation initState [] (FeedOp.put outdatedPut) = (initState, okNoopResult) ∧
    performOperation initState [] (FeedOp.update outdatedUpdate) = (initState, okNoopResult) ∧
    performOperation initState [] (FeedOp.remove outdatedRemove) = (initState, okNoopResult) :=
  have h := outdated_operations_silently_dropped initState [] outdatedPut outdatedUpdate
    outdatedRemove rfl (by decide) (by decide) (by decide)
  ⟨rfl, by decide, h.1, h.2.1, h.2.2⟩

/-- C2: while the resource-write filter rejects writes, any Put or Update is
rejected with RESOURCE_EXHAUSTED and the exact message
"Kind operation rejected for document 'id' of type 'docType': 'filterMessage'",
the state (hence every FeedView counter) unchanged. -/
theorem put_update_rejected_when_resource_exhausted
    (s : FeedState) (active : List FieldDef) (pOp : PutOp) (uOp : UpdateOp)
    (hf : s.filterAccept = false) :
    performOperation s active (FeedOp.put pOp) =
      (s, { errorType := ErrorType.RESOURCE_EXHAUSTED,
            message := rejectMessage "Put" pOp.docId pOp.docType s.filterMessage,
            existingTimestamp := 0, documentWasFound := false }) ∧
    performOperation s active (FeedOp.update uOp) =
      (s, { errorType := ErrorType.RESOURCE_EXHAUSTED,
            message := rejectMessage "Update" uOp.docId uOp.docType s.filterMessage,
            existingTimestamp := 0, documentWasFound := false }) := by
  constructor <;> simp [performOperation, performPut, performUpdate, hf]

/-- C2 witness: the rejection at the test's concrete put and update, with the
literal messages the test expects. -/
theorem put_update_rejected_when_resource_exhausted_witness :
    rejectFilterState.filterAccept = false ∧
    performOperation rejectFilterState [] (FeedOp.put samplePut) =
      (rejectFilterState,
       { errorType := ErrorType.RESOURCE_EXHAUSTED,
         message := "Put operation rejected for document 'id:test:searchdocument::foo' of type 'searchdocument': 'Attribute resource limit reached'",
         existingTimestamp := 0, documentWasFound := false }) ∧
    performOperation rejectFilterState [] (FeedOp.update sampleUpdate) =
      (rejectFilterState,
       { errorType := ErrorType.RESOURCE_EXHAUSTED,
         message := "Update operation rejected for document 'id:test:searchdocument::foo' of type 'searchdocument': 'Attribute resource limit reached'",
         existingTimestamp := 0, documentWasFound := false }) :=
  have h := put_update_rejected_when_resource_exhausted rejectFilterState [] samplePut
    sampleUpdate rfl
  ⟨rfl, h.1.trans (by decide), h.2.trans (by decide)⟩

/-- C3 counterexample: an outdated Remove (prevTimestamp 10000 > timestamp
10) is dropped, so the handleRemove count does not increase; the claim that
every submitted Remove is accepted fails. -/
theorem outdated_remove_not_counted :
    ¬ ((performOperation rejectFilterState [] (FeedOp.remove outdatedRemove)).1.removeCount
        = rejectFilterState.removeCount + 1) := by
  decide

/-- C3 (amended): every non-outdated Remove (prevTimestamp = 0 or
prevTimestamp ≤ timestamp) is accepted regardless of the resource-write
filter state: the handleRemove count increases by exactly one and the token
completes with ErrorType NONE and an empty message. -/
theorem remove_never_rejected_by_filter
    (s : FeedState) (active : List FieldDef) (rOp : RemoveOp)
    (h : isOutdated rOp.prevTimestamp rOp.timestamp = false) :
    (performOperation s active (FeedOp.remove rOp)).1.removeCount = s.removeCount + 1 ∧
    (performOperation s active (FeedOp.remove rOp)).2.errorType = ErrorType.NONE ∧
    (performOperation s active (FeedOp.remove rOp)).2.message = "" := by
  simp [performOperation, performRemove, h]

/-- C3 witness: the amended theorem at the test's concrete remove, submitted
while the filter rejects writes. -/
theorem remove_never_rejected_by_filter_witness :
    isOutdated sampleRemove.prevTimestamp sampleRemove.timestamp = false ∧
    (performOperation rejectFilterState [] (FeedOp.remove sampleRemove)).1.removeCount
      = rejectFilterState.removeCount + 1 ∧
    (performOperation rejectFilterState [] (FeedOp.remove sampleRemove)).2.errorType
      = ErrorType.NONE ∧
    (performOperation rejectFilterState [] (FeedOp.remove sampleRemove)).2.message = "" :=
  have h := remove_never_rejected_by_filter rejectFilterState [] sampleRemove (by decide)
  ⟨by decide, h.1, h.2.1, h.2.2⟩

/-- C4: an Update of a non-existent document (meta store empty for it, so
prevFound is false and prevTimestamp 0) with createIfNonExistent set, when
the filter accepts writes and the update translates cleanly, synthesizes a
Put: the serial number advances by exactly one, exactly one TLS entry is
written, handlePut (not handleUpdate) is dispatched with that serial, and
the token completes with UpdateResult existingTimestamp = the operation's
timestamp and documentWasFound = true. -/
theorem update_create_if_non_existent_synthesizes_put
    (s : FeedState) (active : List FieldDef) (op : UpdateOp)
    (hf : s.filterAccept = true)
    (ht : updateTypeError active op = none)
    (hnf : op.prevFound = false)
    (hpt : op.prevTimestamp = 0)
    (hc : op.createIfNonExistent = true) :
    performOperation s active (FeedOp.update op) =
      ({ s with serialNum := s.serialNum + 1,
                tlsStoreCount := s.tlsStoreCount + 1,
                putCount := s.putCount + 1,
                putSerial := s.serialNum + 1 },
       { errorType := ErrorType.NONE, message := "",
         existingTimestamp := op.timestamp, documentWasFound := true }) := by
  simp [performOperation, performUpdate, isOutdated, hf, ht, hnf, hpt, hc]

/-- C4 witness: the test scenario, serial set to 15: the synthesized put gets
serial 16, one TLS write, and the token carries existingTimestamp 10 and
documentWasFound true. -/
theorem update_create_if_non_existent_synthesizes_put_witness :
    sampleCreateUpdate.createIfNonExistent = true ∧
    performOperation { initState with serialNum := 15 } [] (FeedOp.update sampleCreateUpdate) =
      ({ initState with serialNum := 16, tlsStoreCount := 1, putCount := 1,
                        putSerial := 16 },
       { errorType := ErrorType.NONE, message := "", existingTimestamp := 10,
         documentWasFound := true }) :=
  have h := update_create_if_non_existent_synthesizes_put
    { initState with serialNum := 15 } [] sampleCreateUpdate rfl rfl rfl rfl rfl
  ⟨rfl, h.trans (by decide)⟩

/-- C5: an Update of a non-existent document with createIfNonExistent unset,
when the filter accepts writes and the update translates cleanly, leaves the
state untouched (no TLS write, no FeedView call) and completes the token
with UpdateResult existingTimestamp = 0, documentWasFound = false. -/
theorem update_non_existent_tagged_not_found
    (s : FeedState) (active : List FieldDef) (op : UpdateOp)
    (hf : s.filterAccept = true)
    (ht : updateTypeError active op = none)
    (hnf : op.prevFound = false)
    (hpt : op.prevTimestamp = 0)
    (hc : op.createIfNonExistent = false) :
    performOperation s active (FeedOp.update op) =
      (s, { errorType := ErrorType.NONE, message := "", existingTimestamp := 0,
            documentWasFound := false }) := by
  simp [performOperation, performUpdate, isOutdated, hf, ht, hnf, hpt, hc]

/-- C5 witness: the test scenario: the update of a non-existent document is
answered with existingTimestamp 0 and documentWasFound false, and the state
is unchanged. -/
theorem update_non_existent_tagged_not_found_witness :
    sampleUpdate.createIfNonExistent = false ∧
    performOperation initState [] (FeedOp.update sampleUpdate) =
      (initState,
       { errorType := ErrorType.NONE, message := "", existingTimestamp := 0,
         documentWasFound := false }) :=
  have h := update_non_existent_tagged_not_found initState [] sampleUpdate
    rfl rfl rfl rfl rfl
  ⟨rfl, h⟩

/-- C6: for a non-outdated Update whose document-type repo differs from the
active repo (filter accepting), with a single field update: if the field is
missing from the active type the update is rejected with TRANSIENT_ERROR and
the 'Field not found' message; if the field is a tensor field whose schema
tensor type differs from the update value's tensor type it is rejected with
TRANSIENT_ERROR and the wrong-tensor-type message; in both cases the state
(hence every FeedView counter) is unchanged. -/
theorem update_type_incompatibility_rejected
    (s : FeedState) (active : List FieldDef) (op : UpdateOp) (fu : FieldUpd)
    (hf : s.filterAccept = true)
    (hout : isOutdated op.prevTimestamp op.timestamp = false)
    (hrepo : op.sameRepo = false)
    (hfu : op.fieldUpdates = [fu]) :
    (lookupField active fu.fieldName = none →
      performOperation s active (FeedOp.update op) =
        (s, { errorType := ErrorType.TRANSIENT_ERROR,
              message := rejectMessage "Update" op.docId op.docType "Field not found",
              existingTimestamp := 0, documentWasFound := false })) ∧
    (∀ fd schemaTT updateTT,
      lookupField active fu.fieldName = some fd →
      fd.tensorType = some schemaTT →
      fu.tensorType = some updateTT →
      schemaTT ≠ updateTT →
      performOperation s active (FeedOp.update op) =
        (s, { errorType := ErrorType.TRANSIENT_ERROR,
              message := rejectMessage "Update" op.docId op.docType
                ("Wrong tensor type: Field tensor type is '" ++ schemaTT ++
                 "' but other tensor type is '" ++ updateTT ++ "'"),
              existingTimestamp := 0, documentWasFound := false })) := by
  constructor
  · intro hlook
    simp [performOperation, performUpdate, updateTypeError, verifyUpdate,
          checkFieldUpd, hf, hout, hrepo, hfu, hlook]
  · intro fd schemaTT updateTT hlook hsch hupd hne
    simp [performOperation, performUpdate, updateTypeError, verifyUpdate,
          checkFieldUpd, hf, hout, hrepo, hfu, hlook, hsch, hupd, hne]

/-- C6 witness: the two test scenarios against the fixture's active type:
the update to the missing field i2 gets the 'Field not found' message and
the tensor2 update carrying tensor type tensor(x\x7b\x7d) gets the
wrong-tensor-type message naming both types; the state is unchanged. -/
theorem update_type_incompatibility_rejected_witness :
    missingFieldUpdate.sameRepo = false ∧
    performOperation initState activeFields (FeedOp.update missingFieldUpdate) =
      (initState,
       { errorType := ErrorType.TRANSIENT_ERROR,
         message := "Update operation rejected for document 'id:test:searchdocument::foo' of type 'searchdocument': 'Field not found'",
         existingTimestamp := 0, documentWasFound := false }) ∧
    performOperation initState activeFields (FeedOp.update wrongTensorUpdate) =
      (initState,
       { errorType := ErrorType.TRANSIENT_ERROR,
         message := "Update operation rejected for document 'id:test:searchdocument::foo' of type 'searchdocument': 'Wrong tensor type: Field tensor type is 'tensor(x\x7b\x7d,y\x7b\x7d)' but other tensor type is 'tensor(x\x7b\x7d)''",
         existingTimestamp := 0, documentWasFound := false }) :=
  have h1 := (update_type_incompatibility_rejected initState activeFields
    missingFieldUpdate { fieldName := "i2", tensorType := none }
    rfl (by decide) rfl rfl).1 (by decide)
  have h2 := (update_type_incompatibility_rejected initState activeFields
    wrongTensorUpdate { fieldName := "tensor2", tensorType := some "tensor(x\x7b\x7d)" }
    rfl (by decide) rfl rfl).2
    { name := "tensor2", tensorType := some "tensor(x\x7b\x7d,y\x7b\x7d)" }
    "tensor(x\x7b\x7d,y\x7b\x7d)" "tensor(x\x7b\x7d)" (by decide) rfl rfl (by decide)
  ⟨rfl, h1.trans (by decide), h2.trans (by decide)⟩

/-- A state in the Normal feed state with pruning allowed but the TLS
refusing erases. -/
def pruneFailState : FeedState :=
  { initState with tlsReplayDone := true, allowPrune := true,
                   tlsEraseReturn := false }

/-- C7 counterexample: when the TLS refuses the erase (spec §7: the prune
failure retains the watermark), flushDone(10) in the Normal feed state with
pruning allowed leaves the watermark at 0, so the unconditional claim that
getPrunedSerialNum is at least n after flushDone(n) fails. -/
theorem flushdone_after_failed_prune_below_target :
    ¬ (10 ≤ getPrunedSerialNum (flushDone pruneFailState 10)) := by
  decide

/-- Helper: flushDone at or below the current watermark is the identity (the
cannot-unprune branch). -/
theorem flushDone_cannot_unprune (s : FeedState) (m : Nat)
    (h : m ≤ getPrunedSerialNum s) : flushDone s m = s := by
  unfold flushDone
  simp [getPrunedSerialNum] at h
  simp [h]

/-- C7 (amended): provided the transaction log accepts erases, the
pruned-serial watermark is monotone: after flushDone(n) the value returned
by getPrunedSerialNum is at least n, and a subsequent flushDone(m) with
m < n leaves the state, hence the watermark, unchanged. -/
theorem pruned_serial_watermark_monotone
    (s : FeedState) (n m : Nat)
    (he : s.tlsEraseReturn = true) (hm : m < n) :
    n ≤ getPrunedSerialNum (flushDone s n) ∧
    flushDone (flushDone s n) m = flushDone s n := by
  have hkey : n ≤ getPrunedSerialNum (flushDone s n) := by
    unfold flushDone
    by_cases h1 : n ≤ s.prunedSerialNum
    · simp [h1, getPrunedSerialNum]
    · by_cases h2 : (s.tlsReplayDone && s.allowPrune) = true
      · simp [h1, h2, tlsPrune, he, getPrunedSerialNum]
      · simp [h1, h2, getPrunedSerialNum]
  exact ⟨hkey, flushDone_cannot_unprune (flushDone s n) m (le_trans hm.le hkey)⟩

/-- C7 witness: the test's sequence, with the TLS accepting erases: after
flushDone(10) the watermark is at least 10 and flushDone(5) changes
nothing. -/
theorem pruned_serial_watermark_monotone_witness :
    initState.tlsEraseReturn = true ∧ 5 < 10 ∧
    10 ≤ getPrunedSerialNum (flushDone initState 10) ∧
    flushDone (flushDone initState 10) 5 = flushDone initState 10 :=
  have h := pruned_serial_watermark_monotone initState 10 5 rfl (by decide)
  ⟨rfl, by decide, h.1, h.2⟩

/-- C8: from a state where transaction-log replay is not done, flushDone(n)
(for n above the watermark) advances the watermark to n without a single
TLS erase; and after entering the Normal feed state (no deferred prune
pending) with the owner allowing pruning, the same flushDone(n) triggers
exactly one TLS erase. -/
theorem flush_defers_prune_until_normal_state
    (s : FeedState) (n : Nat)
    (hr : s.tlsReplayDone = false)
    (hn : s.prunedSerialNum < n) :
    ((flushDone s n).tlsEraseCount = s.tlsEraseCount ∧
     getPrunedSerialNum (flushDone s n) = n) ∧
    (s.allowPrune = true → s.delayedPrune = false →
      (flushDone (changeToNormalFeedState s) n).tlsEraseCount
        = s.tlsEraseCount + 1) := by
  have hn' : ¬ (n ≤ s.prunedSerialNum) := not_le.mpr hn
  refine ⟨⟨?_, ?_⟩, ?_⟩
  · simp [flushDone, hn', hr]
  · simp [flushDone, hn', hr, getPrunedSerialNum]
  · intro ha hd
    cases he : s.tlsEraseReturn <;>
      simp [changeToNormalFeedState, hd, flushDone, hn', ha, tlsPrune, he]

/-- C8 witness: the test's two scenarios, from the fixture state with the
owner allowing pruning: flushDone(10) before entering the Normal feed state
erases nothing and moves the watermark to 10; after entering the Normal
feed state the same call performs exactly one erase. -/
theorem flush_defers_prune_until_normal_state_witness :
    ({ initState with allowPrune := true } : FeedState).tlsReplayDone = false ∧
    (flushDone { initState with allowPrune := true } 10).tlsEraseCount = 0 ∧
    getPrunedSerialNum (flushDone { initState with allowPrune := true } 10) = 10 ∧
    (flushDone (changeToNormalFeedState { initState with allowPrune := true }) 10).tlsEraseCount = 1 :=
  have h := flush_defers_prune_until_normal_state
    { initState with allowPrune := true } 10 rfl (by decide)
  ⟨rfl, h.1.1, h.1.2, h.2 rfl rfl⟩

/-- The fixture state with the TLS refusing erases. -/
def pruneRefusedState : FeedState :=
  { initState with tlsEraseReturn := false }

/-- C9: when the transaction log refuses the erase, tlsPrune(n) raises the
IllegalState message "Failed to prune TLS to token n." and the
pruned-serial watermark is not advanced. -/
theorem tls_prune_failure_raises_illegal_state
    (s : FeedState) (n : Nat)
    (he : s.tlsEraseReturn = false) :
    (tlsPrune s n).2 = some ("Failed to prune TLS to token " ++ Nat.repr n ++ ".") ∧
    getPrunedSerialNum (tlsPrune s n).1 = getPrunedSerialNum s := by
  constructor <;> simp [tlsPrune, he, getPrunedSerialNum]

/-- C9 witness: the test's call tlsPrune(10) with the TLS rejecting erases:
the literal message names token 10 and the watermark stays 0. -/
theorem tls_prune_failure_raises_illegal_state_witness :
    pruneRefusedState.tlsEraseReturn = false ∧
    (tlsPrune pruneRefusedState 10).2 = some "Failed to prune TLS to token 10." ∧
    getPrunedSerialNum (tlsPrune pruneRefusedState 10).1 = 0 :=
  have h := tls_prune_failure_raises_illegal_state pruneRefusedState 10 rfl
  ⟨rfl, h.1.trans (by decide), h.2⟩

/-- C10: performPruneRemovedDocuments with no LIDs to remove is a complete
no-op (the state, hence the FeedView prune count and the TLS store count,
is unchanged); with at least one LID it makes exactly one FeedView
handlePruneRemovedDocuments call and exactly one TLS write. -/
theorem prune_removed_documents_frame (s : FeedState) (l : Nat) (ls : List Nat) :
    performPruneRemovedDocuments s [] = s ∧
    (performPruneRemovedDocuments s (l :: ls)).pruneRemovedCount
      = s.pruneRemovedCount + 1 ∧
    (performPruneRemovedDocuments s (l :: ls)).tlsStoreCount
      = s.tlsStoreCount + 1 :=
  ⟨rfl, rfl, rfl⟩
